import Mathlib

/-
Verification of the FireTV media-player component
(`src/media_player/firetv.py`): a shallow embedding of its data model,
command gate and state-inference engine, with theorems checking the
specified behaviour against the embedded code.

Conventions of the embedding:
* Python strings are Lean `String`; the Python string methods used by the
  source (`startswith`, `lstrip`, slicing) are defined below over the
  character list so that they evaluate by kernel reduction.
* Python `None` / truthiness is modelled explicitly: a value that may be
  `None` is an `Option`, and the truthiness tests of the source are the
  functions `truthyOB` / `pyTruthy` below.
* Machine time is `Nat` milliseconds.
-/

namespace FireTV

/-- Python `s.startswith(p)`. -/
def startswith (s p : String) : Bool := p.data.isPrefixOf s.data

/-- Python `s.lstrip()`: remove leading whitespace. -/
def lstrip (s : String) : String := ⟨s.data.dropWhile Char.isWhitespace⟩

/-- Python slice `s[n:]`. -/
def strdrop (n : Nat) (s : String) : String := ⟨s.data.drop n⟩

/-- The homeassistant playback-state constants assigned by the component:
STATE_UNKNOWN, STATE_OFF, STATE_IDLE, STATE_STANDBY, STATE_PLAYING,
STATE_PAUSED (imports at lines 18-20 of the source). -/
inductive HAState
  | unknown
  | off
  | idle
  | standby
  | playing
  | paused
deriving DecidableEq, Repr

/-- A Python value as returned by the gated `current_app` read and stored in
`self._current_app`: `None`, a string, or a dict (modelled as an association
list of string fields; only the "package" field is ever consulted). -/
inductive AppVal
  | null
  | str (s : String)
  | dict (fields : List (String × String))
deriving DecidableEq, Repr

/-- Python truthiness of an `AppVal` (`if self._current_app:` at line 227). -/
def pyTruthy : AppVal → Bool
  | .null => false
  | .str s => !(s == "")
  | .dict l => !l.isEmpty

/-- Lines 220-223: `if isinstance(current_app, dict) and "package" in
current_app: self._current_app = current_app["package"] else:
self._current_app = current_app`. -/
def extractApp : AppVal → AppVal
  | .dict l =>
      match l.lookup "package" with
      | some p => .str p
      | none => .dict l
  | v => v

/-- Python truthiness of an optional boolean, as used in
`if not adb_command(...)(self)` on the gated property reads: `None` and
`False` are falsy. -/
def truthyOB : Option Bool → Bool
  | some b => b
  | none => false

/-- Line 52 of the source. -/
def PACKAGE_LAUNCHER : String := "com.amazon.tv.launcher"

/-- Line 53 of the source. -/
def PACKAGE_SETTINGS : String := "com.amazon.tv.settings"

/-- Lines 233-234: `self._current_app in [PACKAGE_LAUNCHER,
PACKAGE_SETTINGS]` — Python equality of the stored value against each of the
two strings; a `None` or dict value is equal to neither. -/
def inLauncherSettings : AppVal → Bool
  | .str s => s == PACKAGE_LAUNCHER || s == PACKAGE_SETTINGS
  | _ => false

/-- The exception kinds distinguished by the component: the seven members of
the `self._exceptions` tuple (lines 133-135) plus an `other` kind standing
for every exception outside that tuple. -/
inductive Exc
  | typeError
  | valueError
  | attributeError
  | brokenPipeError
  | invalidCommandError
  | invalidResponseError
  | invalidChecksumError
  | other (tag : Nat)
deriving DecidableEq, Repr

/-- Lines 133-135: `self._exceptions = (TypeError, ValueError,
AttributeError, BrokenPipeError, InvalidCommandError, InvalidResponseError,
InvalidChecksumError)`. -/
def _exceptions : List Exc :=
  [.typeError, .valueError, .attributeError, .brokenPipeError,
   .invalidCommandError, .invalidResponseError, .invalidChecksumError]

/-- The mutable state of one `FireTVDevice` (lines 122-142). The connection
handle `self._firetv._adb` is an external ADB connection object or `None`;
only its truthiness (present or absent) is consulted by this component, so it
is embedded as a `Bool`. -/
structure DeviceState where
  _host : String
  _adbkey : String
  _name : String
  _adb : Bool
  _state : HAState
  _running_apps : Option (List AppVal)
  _current_app : AppVal
  _get_source : Bool
  _get_sources : Bool
deriving DecidableEq, Repr

/-- `FireTVDevice.__init__` (lines 122-142). The external `FireTV(host,
adbkey)` constructor attempts a connection; whether it succeeded is the
parameter `adbConnected`. -/
def FireTVDevice_init (host name adbkey : String)
    (get_source get_sources : Bool) (adbConnected : Bool) : DeviceState :=
  { _host := host
    _adbkey := adbkey
    _name := name
    _adb := adbConnected
    _state := .unknown
    _running_apps := none
    _current_app := .null
    _get_source := get_source
    _get_sources := get_sources }

/-- Property `source` (lines 164-167): returns `self._current_app`. -/
def source (st : DeviceState) : AppVal := st._current_app

/-- Property `source_list` (lines 169-172): returns `self._running_apps`. -/
def source_list (st : DeviceState) : Option (List AppVal) := st._running_apps

/-- Property `state` (lines 159-162): returns `self._state`. -/
def state (st : DeviceState) : HAState := st._state

/-- The inner wrapper `_adb_command` built by the gate (lines 96-114):
running the underlying operation either returns a value or raises an
exception. On a value `v` the wrapper returns it (embedded as `some v`) with
no log line. On an exception in `self._exceptions` the wrapper logs one
error line, sets `self._firetv._adb = None` and returns `None` (embedded as
`some`-free `none`). Any other exception propagates and the state is left
unchanged. The result triple is (new device state, propagated-or-returned
result, number of error-level log lines emitted). -/
def _adb_command {α : Type} (st : DeviceState) (outcome : Except Exc α) :
    DeviceState × Except Exc (Option α) × Nat :=
  match outcome with
  | .ok v => (st, .ok (some v), 0)
  | .error e =>
      if e ∈ _exceptions then
        ({ st with _adb := false }, .ok none, 1)
      else
        (st, .error e, 0)

/-- Line 54: `MIN_TIME = datetime.timedelta(milliseconds=10)`. -/
def MIN_TIME : Nat := 10

/-- Line 55: `SLEEP_TIME = 0.1` seconds, expressed in milliseconds. -/
def SLEEP_TIME_MS : Nat := 100

/-- The operation identity passed to the gate factory `adb_command`: either a
property name (`is_property=True`) or a method. -/
inductive OpId
  | prop (name : String)
  | method (name : String)
deriving DecidableEq, Repr

/-- Modelled from the spec: the implementation of the `Throttle` decorator
(imported from `homeassistant.util`, line 22) is not part of this repository.
Per the spec, the Gate State is a last-invocation timestamp, and an
invocation "occurring within a minimum interval (10 ms) of the previous
invocation" is coalesced: "the call is skipped" with a no-op result. In the
source the decorator `@Throttle(MIN_TIME)` (line 93) is applied exactly once,
to the single module-level factory function `adb_command`, so there is one
throttle record shared by every invocation of the factory, whatever
operation argument is passed. -/
structure ThrottleState where
  last : Option Nat
deriving DecidableEq, Repr

/-- The throttled gate factory `adb_command(command, is_property)` (lines
93-116) invoked at time `now`: if the previous non-skipped invocation lies
within `MIN_TIME`, the call is skipped and no wrapper is produced (`none`),
so no underlying remote call can happen; otherwise the timestamp is updated
and the wrapper for `op` is produced (`some op`). The throttle record does
not depend on `op` (see `ThrottleState`). -/
def adb_command (ts : ThrottleState) (now : Nat) (op : OpId) :
    ThrottleState × Option OpId :=
  match ts.last with
  | some t =>
      if now - t < MIN_TIME then (ts, none)
      else ({ last := some now }, some op)
  | none => ({ last := some now }, some op)

/-- The gated remote reads a polling cycle can issue (together with the gated
reconnect attempt), in source order. -/
inductive Probe
  | connect
  | screen_on
  | awake
  | running_apps
  | current_app
  | wake_lock
deriving DecidableEq, Repr

/-- The values the gated remote reads of one polling cycle return to the
engine. A boolean property read yields `none` when the device read is absent
or the gate handled a recognized fault (the gate returns `None` in that
case, see `_adb_command`); the handle-teardown side effect of a faulted read
only matters to later cycles. `connectOk` is whether the handle is present
after the gated reconnect attempt of the disconnected branch. -/
structure Oracle where
  connectOk : Bool
  screen_on : Option Bool
  awake : Option Bool
  running_apps : Option (List String)
  current_app : AppVal
  wake_lock : Option Bool
deriving DecidableEq, Repr

/-- `FireTVDevice.async_update` (lines 174-259), as a function from the
device state and the cycle oracle to the new device state and the list of
gated remote calls issued, in order. The `await asyncio.sleep(SLEEP_TIME)`
pacing (100 ms, exceeding the 10 ms throttle window) is a scheduling
concern dropped from the embedding. -/
def async_update (st : DeviceState) (o : Oracle) : DeviceState × List Probe :=
  if st._adb = false then
    ({ st with
        _state := .unknown
        _running_apps := none
        _current_app := .null
        _adb := o.connectOk },
     [Probe.connect])
  else if truthyOB o.screen_on = false then
    ({ st with _state := .off, _running_apps := none, _current_app := .null },
     [Probe.screen_on])
  else if truthyOB o.awake = false then
    ({ st with _state := .idle, _running_apps := none, _current_app := .null },
     [Probe.screen_on, Probe.awake])
  else
    let st1 : DeviceState :=
      if st._get_sources then
        { st with _running_apps := o.running_apps.map (fun l => l.map AppVal.str) }
      else st
    let trace1 : List Probe :=
      [Probe.screen_on, Probe.awake] ++
        (if st._get_sources then [Probe.running_apps] else [])
    if st._get_source then
      let app := extractApp o.current_app
      let st2 : DeviceState := { st1 with _current_app := app }
      let st3 : DeviceState :=
        if st._get_sources then st2
        else if pyTruthy app then { st2 with _running_apps := some [app] }
        else { st2 with _running_apps := none }
      if inLauncherSettings app then
        ({ st3 with _state := .standby }, trace1 ++ [Probe.current_app])
      else if truthyOB o.wake_lock then
        ({ st3 with _state := .playing },
         trace1 ++ [Probe.current_app, Probe.wake_lock])
      else
        ({ st3 with _state := .paused },
         trace1 ++ [Probe.current_app, Probe.wake_lock])
    else
      if truthyOB o.wake_lock then
        ({ st1 with _state := .playing }, trace1 ++ [Probe.wake_lock])
      else
        ({ st1 with _state := .standby }, trace1 ++ [Probe.wake_lock])

/-- The external `self._firetv` calls the action methods make (lines
261-322): each decorated method body performs exactly one of these. -/
inductive ExtCall
  | turn_on
  | turn_off
  | media_play
  | media_pause
  | media_play_pause
  | back
  | volume_up
  | volume_down
  | media_previous
  | media_next
  | launch_app (app : String)
  | stop_app (app : String)
deriving DecidableEq, Repr

/-- Body of `FireTVDevice.select_source` (lines 311-322) for a string
argument (the `isinstance(source, str)` guard holds): if the source does not
start with `"!"` it is launched unchanged, otherwise the sigil is stripped
(`source[1:]`), leading whitespace trimmed (`.lstrip()`), and the named app
stopped. -/
def select_source_body (source : String) : ExtCall :=
  if startswith source "!" = false then
    .launch_app source
  else
    .stop_app (lstrip (strdrop 1 source))

/-- The action operations of the command surface (lines 261-322). -/
inductive ActionOp
  | turn_on
  | turn_off
  | media_play
  | media_pause
  | media_play_pause
  | media_stop
  | volume_up
  | volume_down
  | media_previous_track
  | media_next_track
  | select_source (source : String)
deriving DecidableEq, Repr

/-- The single external call each action method body makes: `media_stop`
calls `self._firetv.back()` (line 289), `media_previous_track` calls
`media_previous` (line 304), `media_next_track` calls `media_next`
(line 309), `select_source` dispatches per `select_source_body`; the rest
call the identically named `self._firetv` method. -/
def underlying_call : ActionOp → ExtCall
  | .turn_on => .turn_on
  | .turn_off => .turn_off
  | .media_play => .media_play
  | .media_pause => .media_pause
  | .media_play_pause => .media_play_pause
  | .media_stop => .back
  | .volume_up => .volume_up
  | .volume_down => .volume_down
  | .media_previous_track => .media_previous
  | .media_next_track => .media_next
  | .select_source s => select_source_body s

/-- Invoking a decorated action method (lines 261-322): the body performs
one external `self._firetv` call and writes no stored field; the gate
wrapper around it handles a raised exception per `_adb_command`. The result
records (new device state, returned-or-propagated result, error-log count,
the external call performed when the body ran to completion). -/
def runAction (st : DeviceState) (op : ActionOp) (outcome : Except Exc Unit) :
    DeviceState × Except Exc (Option Unit) × Nat × Option ExtCall :=
  let g := _adb_command st outcome
  (g.1, g.2.1, g.2.2,
    match outcome with
    | .ok _ => some (underlying_call op)
    | .error _ => none)

/-- One externally triggered step on a device: a polling cycle (with its
oracle) or an action invocation (with its underlying outcome). -/
inductive Event
  | update (o : Oracle)
  | action (op : ActionOp) (outcome : Except Exc Unit)

/-- The device state after one event. -/
def stepEvent (st : DeviceState) : Event → DeviceState
  | .update o => (async_update st o).1
  | .action op outcome => (runAction st op outcome).1

/-- The device state after a sequence of events. -/
def runEvents : DeviceState → List Event → DeviceState
  | st, [] => st
  | st, e :: es => runEvents (stepEvent st e) es

/-- A sample connected device state with both fetch toggles enabled. -/
def sampleState : DeviceState :=
  FireTVDevice_init "127.0.0.1:5555" "Amazon Fire TV" "" true true true

/-- Sample cycle oracle: screen on, awake, a non-launcher app in the
foreground, wake lock held. -/
def sampleOracle : Oracle :=
  { connectOk := true
    screen_on := some true
    awake := some true
    running_apps := some ["com.netflix.ninja"]
    current_app := .str "com.netflix.ninja"
    wake_lock := some true }

/-- Sample cycle oracle: screen reads off. -/
def offOracle : Oracle :=
  { connectOk := true
    screen_on := some false
    awake := some true
    running_apps := none
    current_app := .null
    wake_lock := some true }

/-- Sample cycle oracle: screen on but the awake read is absent. -/
def idleOracle : Oracle :=
  { connectOk := true
    screen_on := some true
    awake := none
    running_apps := none
    current_app := .null
    wake_lock := some true }

/-- Sample cycle oracle: the launcher package is in the foreground while a
wake lock is held. -/
def launcherOracle : Oracle :=
  { sampleOracle with current_app := .str PACKAGE_LAUNCHER }

/-- Sample cycle oracle: no current app could be read. -/
def noAppOracle : Oracle :=
  { sampleOracle with current_app := AppVal.null }

/-- Sample device state with an absent connection handle. -/
def disconnectedState : DeviceState :=
  { sampleState with _adb := false }

/-- Sample device state with `get_sources` disabled and `get_source`
enabled. -/
def singleSourceState : DeviceState :=
  { sampleState with _get_sources := false }

/-- Helper for C10: no event changes the `_get_source` toggle. -/
theorem stepEvent_get_source_eq (st : DeviceState) (e : Event) :
    (stepEvent st e)._get_source = st._get_source := by
  cases e with
  | update o =>
      simp only [stepEvent, async_update]
      split_ifs <;> simp
  | action op outcome =>
      cases outcome with
      | ok v => simp [stepEvent, runAction, _adb_command]
      | error e' =>
          by_cases h : e' ∈ _exceptions <;>
            simp [stepEvent, runAction, _adb_command, h]

/-- Helper for C10: with `get_source` disabled, no event assigns a current
app. -/
theorem stepEvent_current_app_null (st : DeviceState) (e : Event)
    (hg : st._get_source = false) (hc : st._current_app = AppVal.null) :
    (stepEvent st e)._current_app = AppVal.null := by
  cases e with
  | update o =>
      simp only [stepEvent, async_update, hg]
      split_ifs <;> simp_all
  | action op outcome =>
      cases outcome with
      | ok v => simpa [stepEvent, runAction, _adb_command] using hc
      | error e' =>
          by_cases h : e' ∈ _exceptions <;>
            simpa [stepEvent, runAction, _adb_command, h] using hc

/-- Helper for C10: the current app stays absent over any event sequence
when `get_source` is disabled. -/
theorem runEvents_current_app_null (events : List Event) :
    ∀ st : DeviceState, st._get_source = false →
      st._current_app = AppVal.null →
      (runEvents st events)._current_app = AppVal.null := by
  induction events with
  | nil => intro st _ hc; simpa [runEvents] using hc
  | cons e es ih =>
      intro st hg hc
      have hg' : (stepEvent st e)._get_source = false := by
        rw [stepEvent_get_source_eq]; exact hg
      have hc' := stepEvent_current_app_null st e hg hc
      simpa [runEvents] using ih (stepEvent st e) hg' hc'

/-- C1 (counterexample): invoking the gate for the distinct operation
`_awake` 5 ms after an invocation for `_screen_on` that performed its call
is coalesced — the factory yields no wrapper, so no underlying call happens
and no previous value is reused — refuting that coalescing is keyed by
underlying operation identity. -/
theorem C1_counterexample :
    (adb_command ⟨none⟩ 0 (OpId.prop "_screen_on")).2 =
        some (OpId.prop "_screen_on") ∧
    OpId.prop "_awake" ≠ OpId.prop "_screen_on" ∧
    adb_command (adb_command ⟨none⟩ 0 (OpId.prop "_screen_on")).1 5
        (OpId.prop "_awake") =
      ((adb_command ⟨none⟩ 0 (OpId.prop "_screen_on")).1, none) := by
  decide

/-- C1 (amended): after a gate invocation that performed its call at time
`t1`, any gate invocation within 10 ms — whatever its operation identity,
equal to or distinct from the first — is coalesced: the factory yields no
wrapper (so no underlying call is performed and the previous value is not
handed out) and the shared throttle record is unchanged. -/
theorem C1_throttle_global_coalescing (ts : ThrottleState) (t1 t2 : Nat)
    (op1 op2 : OpId)
    (hrun : (adb_command ts t1 op1).2 = some op1)
    (hnear : t2 < t1 + MIN_TIME) :
    (adb_command (adb_command ts t1 op1).1 t2 op2).2 = none ∧
    (adb_command (adb_command ts t1 op1).1 t2 op2).1 =
      (adb_command ts t1 op1).1 := by
  have hst : (adb_command ts t1 op1).1 = ⟨some t1⟩ := by
    cases hl : ts.last with
    | none => simp [adb_command, hl]
    | some t =>
        by_cases hc : t1 - t < MIN_TIME
        · simp [adb_command, hl, hc] at hrun
        · simp [adb_command, hl, hc]
  rw [hst]
  have h2 : t2 - t1 < MIN_TIME := by
    have h10 : t2 < t1 + 10 := by simpa [MIN_TIME] using hnear
    simp only [MIN_TIME]
    omega
  simp [adb_command, h2]

/-- Witness for C1 (amended) at a concrete pair of invocations 5 ms
apart. -/
theorem C1_throttle_global_coalescing_witness :
    (adb_command ⟨none⟩ 0 (OpId.prop "_screen_on")).2 =
        some (OpId.prop "_screen_on") ∧
    (adb_command (adb_command ⟨none⟩ 0 (OpId.prop "_screen_on")).1 5
        (OpId.prop "_awake")).2 = none :=
  ⟨by decide,
   (C1_throttle_global_coalescing ⟨none⟩ 0 5 (OpId.prop "_screen_on")
      (OpId.prop "_awake") (by decide) (by decide)).1⟩

/-- C2: the gate fault contract. The recognized set is exactly the seven
listed exception kinds; on a recognized exception the gate sets the handle
to the disconnected sentinel, returns the neutral `None`, emits exactly one
error log line and lets no exception escape; any other exception propagates
with the state unchanged. -/
theorem C2_gate_fault_contract (st : DeviceState) (e : Exc) :
    (e ∈ _exceptions ↔
      e = Exc.typeError ∨ e = Exc.valueError ∨ e = Exc.attributeError ∨
        e = Exc.brokenPipeError ∨ e = Exc.invalidCommandError ∨
        e = Exc.invalidResponseError ∨ e = Exc.invalidChecksumError) ∧
    (e ∈ _exceptions →
      _adb_command st (Except.error e : Except Exc Unit) =
        ({ st with _adb := false }, Except.ok none, 1)) ∧
    (e ∉ _exceptions →
      _adb_command st (Except.error e : Except Exc Unit) =
        (st, Except.error e, 0)) := by
  refine ⟨?_, ?_, ?_⟩
  · simp [_exceptions]
  · intro h
    simp [_adb_command, h]
  · intro h
    simp [_adb_command, h]

/-- Witness for C2 at a recognized and at an unrecognized exception. -/
theorem C2_gate_fault_contract_witness :
    _adb_command sampleState (Except.error Exc.typeError : Except Exc Unit) =
      ({ sampleState with _adb := false }, Except.ok none, 1) ∧
    _adb_command sampleState
        (Except.error (Exc.other 0) : Except Exc Unit) =
      (sampleState, Except.error (Exc.other 0), 0) :=
  ⟨(C2_gate_fault_contract sampleState Exc.typeError).2.1 (by decide),
   (C2_gate_fault_contract sampleState (Exc.other 0)).2.2 (by decide)⟩

/-- C3: with the handle present, screen on, awake, and — when the current
app is fetched — the current app neither launcher nor settings, the cycle
ends in Playing exactly when the wake lock reads true; on a false or absent
wake lock it ends in Paused when the current app is fetched and in Standby
otherwise. -/
theorem C3_wake_lock_state (st : DeviceState) (o : Oracle)
    (hadb : st._adb = true)
    (hscreen : truthyOB o.screen_on = true)
    (hawake : truthyOB o.awake = true)
    (happ : st._get_source = true →
      inLauncherSettings (extractApp o.current_app) = false) :
    ((async_update st o).1._state = HAState.playing ↔
      truthyOB o.wake_lock = true) ∧
    (truthyOB o.wake_lock = false →
      (async_update st o).1._state =
        if st._get_source then HAState.paused else HAState.standby) := by
  cases hg : st._get_source with
  | true =>
      have hL := happ hg
      cases hwl : truthyOB o.wake_lock <;>
        simp [async_update, hadb, hscreen, hawake, hg, hL, hwl]
  | false =>
      cases hwl : truthyOB o.wake_lock <;>
        simp [async_update, hadb, hscreen, hawake, hg, hwl]

/-- Witness for C3: Netflix in the foreground with a wake lock held yields
Playing. -/
theorem C3_wake_lock_state_witness :
    (async_update sampleState sampleOracle).1._state = HAState.playing :=
  (C3_wake_lock_state sampleState sampleOracle (by decide) (by decide)
    (by decide) (fun _ => by decide)).1.mpr (by decide)

/-- C4: with the handle present, screen on, awake, the current app fetched
and equal to the launcher or settings package, the cycle ends in Standby and
the wake-lock probe is never issued. -/
theorem C4_launcher_standby (st : DeviceState) (o : Oracle)
    (hadb : st._adb = true)
    (hscreen : truthyOB o.screen_on = true)
    (hawake : truthyOB o.awake = true)
    (hg : st._get_source = true)
    (happ : inLauncherSettings (extractApp o.current_app) = true) :
    (async_update st o).1._state = HAState.standby ∧
    Probe.wake_lock ∉ (async_update st o).2 := by
  cases hgs : st._get_sources <;>
    simp [async_update, hadb, hscreen, hawake, hg, happ, hgs]

/-- Witness for C4: the launcher in the foreground with a wake lock held
still yields Standby, without a wake-lock probe. -/
theorem C4_launcher_standby_witness :
    (async_update sampleState launcherOracle).1._state = HAState.standby ∧
    Probe.wake_lock ∉ (async_update sampleState launcherOracle).2 :=
  C4_launcher_standby sampleState launcherOracle (by decide) (by decide)
    (by decide) (by decide) (by decide)

/-- C5: with the handle present, a false or absent screen-on read ends the
cycle at Off with source info cleared after the single screen-on probe; a
true screen-on read followed by a false or absent awake read ends the cycle
at Idle with source info cleared after exactly the screen-on and awake
probes. -/
theorem C5_off_idle_short_circuit (st : DeviceState) (o : Oracle)
    (hadb : st._adb = true) :
    (truthyOB o.screen_on = false →
      (async_update st o).1._state = HAState.off ∧
      (async_update st o).1._running_apps = none ∧
      (async_update st o).1._current_app = AppVal.null ∧
      (async_update st o).2 = [Probe.screen_on]) ∧
    (truthyOB o.screen_on = true → truthyOB o.awake = false →
      (async_update st o).1._state = HAState.idle ∧
      (async_update st o).1._running_apps = none ∧
      (async_update st o).1._current_app = AppVal.null ∧
      (async_update st o).2 = [Probe.screen_on, Probe.awake]) := by
  constructor
  · intro hs
    simp [async_update, hadb, hs]
  · intro hs hw
    simp [async_update, hadb, hs, hw]

/-- Witness for C5 at a screen-off oracle and at an absent-awake oracle. -/
theorem C5_off_idle_short_circuit_witness :
    (async_update sampleState offOracle).1._state = HAState.off ∧
    (async_update sampleState offOracle).2 = [Probe.screen_on] ∧
    (async_update sampleState idleOracle).1._state = HAState.idle ∧
    (async_update sampleState idleOracle).2 = [Probe.screen_on, Probe.awake] :=
  ⟨((C5_off_idle_short_circuit sampleState offOracle (by decide)).1
      (by decide)).1,
   ((C5_off_idle_short_circuit sampleState offOracle (by decide)).1
      (by decide)).2.2.2,
   ((C5_off_idle_short_circuit sampleState idleOracle (by decide)).2
      (by decide) (by decide)).1,
   ((C5_off_idle_short_circuit sampleState idleOracle (by decide)).2
      (by decide) (by decide)).2.2.2⟩

/-- C6: with the handle absent the cycle ends at Unknown with source info
cleared, after exactly one gated reconnect attempt and no other probe. -/
theorem C6_disconnected_cycle (st : DeviceState) (o : Oracle)
    (hadb : st._adb = false) :
    (async_update st o).1._state = HAState.unknown ∧
    (async_update st o).1._running_apps = none ∧
    (async_update st o).1._current_app = AppVal.null ∧
    (async_update st o).2 = [Probe.connect] := by
  simp [async_update, hadb]

/-- Witness for C6 at a concrete disconnected state. -/
theorem C6_disconnected_cycle_witness :
    (async_update disconnectedState sampleOracle).1._state =
      HAState.unknown ∧
    (async_update disconnectedState sampleOracle).2 = [Probe.connect] :=
  ⟨(C6_disconnected_cycle disconnectedState sampleOracle (by decide)).1,
   (C6_disconnected_cycle disconnectedState sampleOracle (by decide)).2.2.2⟩

/-- C7: a cycle reaching the current-app step with `get_sources` disabled
and `get_source` enabled stores the extracted current app, and sets the
source list to exactly the one-element list holding it when it is truthy and
to absent when it is not. -/
theorem C7_single_source (st : DeviceState) (o : Oracle)
    (hadb : st._adb = true)
    (hscreen : truthyOB o.screen_on = true)
    (hawake : truthyOB o.awake = true)
    (hgs : st._get_sources = false)
    (hg : st._get_source = true) :
    (async_update st o).1._current_app = extractApp o.current_app ∧
    (pyTruthy (extractApp o.current_app) = true →
      (async_update st o).1._running_apps =
        some [extractApp o.current_app]) ∧
    (pyTruthy (extractApp o.current_app) = false →
      (async_update st o).1._running_apps = none) := by
  cases hL : inLauncherSettings (extractApp o.current_app) <;>
    cases hwl : truthyOB o.wake_lock <;>
      cases hpt : pyTruthy (extractApp o.current_app) <;>
        simp [async_update, hadb, hscreen, hawake, hgs, hg, hL, hwl, hpt]

/-- Witness for C7 at a truthy and at an absent current app. -/
theorem C7_single_source_witness :
    (async_update singleSourceState sampleOracle).1._running_apps =
      some [AppVal.str "com.netflix.ninja"] ∧
    (async_update singleSourceState noAppOracle).1._running_apps = none := by
  constructor
  · have h := (C7_single_source singleSourceState sampleOracle (by decide)
      (by decide) (by decide) (by decide) (by decide)).2.1 (by decide)
    rw [h]
    decide
  · exact (C7_single_source singleSourceState noAppOracle (by decide)
      (by decide) (by decide) (by decide) (by decide)).2.2 (by decide)

/-- C8: `select_source` on a string starting with `"!"` stops the app named
after the sigil with leading whitespace trimmed, and otherwise launches the
string unchanged; in each case exactly the one corresponding external call
is made. -/
theorem C8_select_source_dispatch (s : String) :
    (startswith s "!" = true →
      select_source_body s = ExtCall.stop_app (lstrip (strdrop 1 s))) ∧
    (startswith s "!" = false →
      select_source_body s = ExtCall.launch_app s) := by
  constructor
  · intro h
    simp [select_source_body, h]
  · intro h
    simp [select_source_body, h]

/-- Witness for C8 at the two concrete sources of the claim. -/
theorem C8_select_source_dispatch_witness :
    select_source_body "!com.foo" = ExtCall.stop_app "com.foo" ∧
    select_source_body "com.foo" = ExtCall.launch_app "com.foo" := by
  constructor
  · have h := (C8_select_source_dispatch "!com.foo").1 (by decide)
    rw [h]
    decide
  · exact (C8_select_source_dispatch "com.foo").2 (by decide)

/-- C9: every action operation, whatever its underlying outcome, leaves the
stored playback state, current app and source list unchanged. -/
theorem C9_actions_preserve_state (st : DeviceState) (op : ActionOp)
    (outcome : Except Exc Unit) :
    (runAction st op outcome).1._state = st._state ∧
    (runAction st op outcome).1._current_app = st._current_app ∧
    (runAction st op outcome).1._running_apps = st._running_apps := by
  cases outcome with
  | ok v => simp [runAction, _adb_command]
  | error e =>
      by_cases h : e ∈ _exceptions <;>
        simp [runAction, _adb_command, h]

/-- C10: a device constructed with `get_source` disabled reports an absent
`source` after construction and after every sequence of polling cycles and
action invocations. -/
theorem C10_source_stays_absent (host name adbkey : String)
    (get_sources adbConnected : Bool) (events : List Event) :
    source (runEvents
      (FireTVDevice_init host name adbkey false get_sources adbConnected)
      events) = AppVal.null := by
  have h := runEvents_current_app_null events
    (FireTVDevice_init host name adbkey false get_sources adbConnected)
    rfl rfl
  simpa [source] using h

end FireTV
